import Mathlib

/-!
Verification development for the `lms_portal` Django REST backend
(`api/models.py`, `api/permissions.py`, `api/views.py`, `api/serializers.py`).

The data layer is embedded shallowly: each Django model becomes a Lean
structure whose fields are the columns the verified properties depend on
(foreign keys become `Nat` ids, nullable foreign keys `Option Nat`, the
`DecimalField marks_obtained` an exact rational).  A database state is a
record of lists of rows.  A request caller is a user id together with the
lookup of its `profile`, `teacher_profile` and `student_profile` rows, which
mirror the Django `hasattr(user, ...)` reverse one-to-one accesses.
Operations that can raise in Python (`ZeroDivisionError`, serializer
validation errors) return `Option`/`Except` values, `none`/`.error`
modelling the raised exception.
-/

/-- A row of `auth_user`: only the primary key matters to the verified
properties; accounts are represented by their ids. -/
abbrev UserId := Nat

/-- A row of the `profiles` table (`Profile` model): one-to-one with a user,
carries the role string (`admin` / `teacher` / `student` / `staff`). -/
structure ProfileRec where
  userId : UserId
  role : String
deriving DecidableEq, Repr

/-- A row of the `teachers` table (`Teacher` model). -/
structure TeacherRec where
  id : Nat
  userId : UserId
  employee_id : String
deriving DecidableEq, Repr

/-- A row of the `classes` table (`Class` model): `teacher` is a nullable
foreign key to `Teacher`. -/
structure ClassRec where
  id : Nat
  teacherId : Option Nat
deriving DecidableEq, Repr

/-- A row of the `students` table (`Student` model): `class_enrolled` is a
nullable foreign key to `Class`. -/
structure StudentRec where
  id : Nat
  userId : UserId
  student_id : String
  class_enrolled : Option Nat
deriving DecidableEq, Repr

/-- A row of the `assignments` table (`Assignment` model): non-null foreign
keys to `Class` and `Teacher`, and the `total_marks` ceiling
(`PositiveIntegerField`, i.e. a nonnegative machine integer). -/
structure AssignmentRec where
  id : Nat
  class_assigned : Nat
  teacherId : Nat
  total_marks : Nat
deriving DecidableEq, Repr

/-- A row of the `grades` table (`Grade` model): `marks_obtained` is a
`DecimalField`, embedded as an exact rational; `grade_letter` is a nullable
char column. -/
structure GradeRec where
  studentId : Nat
  assignmentId : Nat
  marks_obtained : ℚ
  grade_letter : Option String
deriving DecidableEq, Repr

/-- A row of the `attendance` table (`Attendance` model): `status` is one of
the strings `present` / `absent` / `late` / `excused`. -/
structure AttendanceRec where
  studentId : Nat
  class_attended : Nat
  status : String
deriving DecidableEq, Repr

/-- The database state: one list of rows per table. -/
structure DB where
  users : List UserId
  profiles : List ProfileRec
  teachers : List TeacherRec
  classes : List ClassRec
  students : List StudentRec
  assignments : List AssignmentRec
  grades : List GradeRec
  attendance : List AttendanceRec
deriving DecidableEq, Repr

/-- `user.profile`: the reverse one-to-one lookup of the caller's `Profile`
row; `none` models the `RelatedObjectDoesNotExist` raise. -/
def profileOf (db : DB) (uid : UserId) : Option ProfileRec :=
  db.profiles.find? (fun p => p.userId = uid)

/-- `hasattr(user, 'teacher_profile')` / `user.teacher_profile`: the reverse
one-to-one lookup of the caller's `Teacher` row. -/
def teacherProfileOf (db : DB) (uid : UserId) : Option TeacherRec :=
  db.teachers.find? (fun t => t.userId = uid)

/-- `hasattr(user, 'student_profile')` / `user.student_profile`: the reverse
one-to-one lookup of the caller's `Student` row. -/
def studentProfileOf (db : DB) (uid : UserId) : Option StudentRec :=
  db.students.find? (fun s => s.userId = uid)

/-- `user.teacher_profile.classes.all()`: the classes whose `teacher` foreign
key is this teacher. -/
def classesOfTeacher (db : DB) (t : TeacherRec) : List ClassRec :=
  db.classes.filter (fun c => c.teacherId = some t.id)

/-- `obj.class_enrolled in teacher_classes` where `class_enrolled` may be
NULL: a NULL class is in no queryset. -/
def optClassInList (db : DB) (t : TeacherRec) (cls : Option Nat) : Bool :=
  match cls with
  | some cid => (classesOfTeacher db t).any (fun c => c.id = cid)
  | none => false

/-- `obj.student`: the non-null foreign key of a grade row to its student. -/
def studentOfGrade (db : DB) (g : GradeRec) : Option StudentRec :=
  db.students.find? (fun s => s.id = g.studentId)

namespace StudentPermission

/-- `StudentPermission.has_object_permission` from `api/permissions.py`:
admin full access, teacher when the student is enrolled in one of the
teacher's classes, staff read-only, student only its own row. -/
def has_object_permission (db : DB) (safe : Bool) (uid : UserId) (obj : StudentRec) : Bool :=
  match profileOf db uid with
  | none => false
  | some p =>
    if p.role = "admin" then true
    else if p.role = "teacher" then
      match teacherProfileOf db uid with
      | some t => optClassInList db t obj.class_enrolled
      | none => false
    else if p.role = "staff" then safe
    else if p.role = "student" then obj.userId = uid
    else false

end StudentPermission

namespace TeacherPermission

/-- `TeacherPermission.has_object_permission` from `api/permissions.py`:
admin full access, teacher read plus write on its own row, everyone else
read-only. -/
def has_object_permission (db : DB) (safe : Bool) (uid : UserId) (obj : TeacherRec) : Bool :=
  match profileOf db uid with
  | none => false
  | some p =>
    if p.role = "admin" then true
    else if p.role = "teacher" then
      if safe then true else obj.userId = uid
    else safe

end TeacherPermission

namespace ClassPermission

/-- `ClassPermission.has_object_permission` from `api/permissions.py`:
admin full access, teacher on its assigned classes, student read-only on its
enrolled class, staff read-only. -/
def has_object_permission (db : DB) (safe : Bool) (uid : UserId) (obj : ClassRec) : Bool :=
  match profileOf db uid with
  | none => false
  | some p =>
    if p.role = "admin" then true
    else if p.role = "teacher" then
      match teacherProfileOf db uid with
      | some t => obj.teacherId = some t.id
      | none => false
    else if p.role = "student" then
      match safe, studentProfileOf db uid with
      | true, some s => s.class_enrolled = some obj.id
      | _, _ => false
    else if p.role = "staff" then safe
    else false

end ClassPermission

namespace AssignmentPermission

/-- `AssignmentPermission.has_permission` from `api/permissions.py`: any
authenticated caller passes the request-level check. -/
def has_permission (authenticated : Bool) : Bool :=
  authenticated

/-- `AssignmentPermission.has_object_permission` from `api/permissions.py`:
admin full access, teacher on its own assignments, student read-only on
assignments of its enrolled class; no staff branch, so staff falls through
to the final deny. -/
def has_object_permission (db : DB) (safe : Bool) (uid : UserId) (obj : AssignmentRec) : Bool :=
  match profileOf db uid with
  | none => false
  | some p =>
    if p.role = "admin" then true
    else if p.role = "teacher" then
      match teacherProfileOf db uid with
      | some t => obj.teacherId = t.id
      | none => false
    else if p.role = "student" then
      match safe, studentProfileOf db uid with
      | true, some s => s.class_enrolled = some obj.class_assigned
      | _, _ => false
    else false

end AssignmentPermission

namespace GradePermission

/-- `GradePermission.has_object_permission` from `api/permissions.py`:
admin full access, teacher when the graded student's class is among the
teacher's classes, student read-only on its own grades; no staff branch. -/
def has_object_permission (db : DB) (safe : Bool) (uid : UserId) (obj : GradeRec) : Bool :=
  match profileOf db uid with
  | none => false
  | some p =>
    if p.role = "admin" then true
    else if p.role = "teacher" then
      match teacherProfileOf db uid with
      | some t =>
        match studentOfGrade db obj with
        | some s => optClassInList db t s.class_enrolled
        | none => false
      | none => false
    else if p.role = "student" then
      match safe, studentProfileOf db uid with
      | true, some s => obj.studentId = s.id
      | _, _ => false
    else false

end GradePermission

namespace AttendancePermission

/-- `AttendancePermission.has_object_permission` from `api/permissions.py`:
admin full access, teacher when the attended class is among the teacher's
classes, student read-only on its own records; no staff branch. -/
def has_object_permission (db : DB) (safe : Bool) (uid : UserId) (obj : AttendanceRec) : Bool :=
  match profileOf db uid with
  | none => false
  | some p =>
    if p.role = "admin" then true
    else if p.role = "teacher" then
      match teacherProfileOf db uid with
      | some t => (classesOfTeacher db t).any (fun c => c.id = obj.class_attended)
      | none => false
    else if p.role = "student" then
      match safe, studentProfileOf db uid with
      | true, some s => obj.studentId = s.id
      | _, _ => false
    else false

end AttendancePermission

namespace StudentViewSet

/-- `StudentViewSet.get_queryset` from `api/views.py`: admin and staff see
all students, a teacher the students enrolled in its classes, a student only
its own row; a missing linked profile yields the empty queryset.  `none`
models the attribute raise on a caller without any `Profile` row. -/
def get_queryset (db : DB) (uid : UserId) : Option (List StudentRec) :=
  match profileOf db uid with
  | none => none
  | some p => some (
      if p.role = "admin" then db.students
      else if p.role = "teacher" then
        match teacherProfileOf db uid with
        | some t => db.students.filter (fun s => optClassInList db t s.class_enrolled)
        | none => []
      else if p.role = "staff" then db.students
      else if p.role = "student" then
        match studentProfileOf db uid with
        | some _ => db.students.filter (fun s => s.userId = uid)
        | none => []
      else [])

end StudentViewSet

namespace AssignmentViewSet

/-- `AssignmentViewSet.get_queryset` from `api/views.py`: admin sees all
assignments, a teacher-role caller also sees all assignments (the branch
performs no filtering and never consults the Teacher profile), a student the
assignments of its enrolled class; every other role gets the empty set. -/
def get_queryset (db : DB) (uid : UserId) : Option (List AssignmentRec) :=
  match profileOf db uid with
  | none => none
  | some p => some (
      if p.role = "admin" then db.assignments
      else if p.role = "teacher" then db.assignments
      else if p.role = "student" then
        match studentProfileOf db uid with
        | some s =>
          match s.class_enrolled with
          | some cid => db.assignments.filter (fun a => a.class_assigned = cid)
          | none => []
        | none => []
      else [])

end AssignmentViewSet

namespace GradeViewSet

/-- `GradeViewSet.get_queryset` from `api/views.py`: admin sees all grades,
a teacher the grades of students enrolled in its classes, a student only its
own grades; every other role (staff included) gets the empty set. -/
def get_queryset (db : DB) (uid : UserId) : Option (List GradeRec) :=
  match profileOf db uid with
  | none => none
  | some p => some (
      if p.role = "admin" then db.grades
      else if p.role = "teacher" then
        match teacherProfileOf db uid with
        | some t => db.grades.filter (fun g =>
            match studentOfGrade db g with
            | some s => optClassInList db t s.class_enrolled
            | none => false)
        | none => []
      else if p.role = "student" then
        match studentProfileOf db uid with
        | some s => db.grades.filter (fun g => g.studentId = s.id)
        | none => []
      else [])

end GradeViewSet

namespace TeacherViewSet

/-- `TeacherViewSet.get_queryset` from `api/views.py`: the whole teacher
table for every caller — no role scoping at all. -/
def get_queryset (db : DB) : List TeacherRec :=
  db.teachers

end TeacherViewSet

namespace ClassViewSet

/-- `ClassViewSet.get_queryset` from `api/views.py`: admin and staff see all
classes, a teacher its assigned classes, a student the class it is enrolled
in; a missing linked profile (or no enrolled class) yields the empty
queryset. -/
def get_queryset (db : DB) (uid : UserId) : Option (List ClassRec) :=
  match profileOf db uid with
  | none => none
  | some p => some (
      if p.role = "admin" then db.classes
      else if p.role = "teacher" then
        match teacherProfileOf db uid with
        | some t => db.classes.filter (fun c => c.teacherId = some t.id)
        | none => []
      else if p.role = "student" then
        match studentProfileOf db uid with
        | some s =>
          match s.class_enrolled with
          | some cid => db.classes.filter (fun c => c.id = cid)
          | none => []
        | none => []
      else if p.role = "staff" then db.classes
      else [])

end ClassViewSet

namespace AttendanceViewSet

/-- `AttendanceViewSet.get_queryset` from `api/views.py`: admin sees all
attendance rows, a teacher the rows of classes it teaches, a student only
its own rows; every other role (staff included) gets the empty set. -/
def get_queryset (db : DB) (uid : UserId) : Option (List AttendanceRec) :=
  match profileOf db uid with
  | none => none
  | some p => some (
      if p.role = "admin" then db.attendance
      else if p.role = "teacher" then
        match teacherProfileOf db uid with
        | some t => db.attendance.filter (fun r =>
            (classesOfTeacher db t).any (fun c => c.id = r.class_attended))
        | none => []
      else if p.role = "student" then
        match studentProfileOf db uid with
        | some s => db.attendance.filter (fun r => r.studentId = s.id)
        | none => []
      else [])

end AttendanceViewSet

namespace Grade

/-- `Grade.calculate_percentage` from `api/models.py`:
`(marks_obtained / assignment.total_marks) * 100` on exact decimals; a zero
`total_marks` raises `DivisionByZero`, modelled by `none`. -/
def calculate_percentage (g : GradeRec) (a : AssignmentRec) : Option ℚ :=
  if a.total_marks = 0 then none
  else some ((g.marks_obtained / (a.total_marks : ℚ)) * 100)

/-- `Grade.save` from `api/models.py`: recompute the percentage and
overwrite `grade_letter` through the fixed threshold chain before
persisting; the division fault of a zero-total assignment propagates. -/
def save (g : GradeRec) (a : AssignmentRec) : Option GradeRec :=
  match calculate_percentage g a with
  | none => none
  | some percentage =>
    some { g with grade_letter := some (
      if percentage ≥ 90 then "A+"
      else if percentage ≥ 80 then "A"
      else if percentage ≥ 70 then "B+"
      else if percentage ≥ 60 then "B"
      else if percentage ≥ 50 then "C+"
      else if percentage ≥ 40 then "C"
      else "F") }

end Grade

/-- The percentage-to-letter threshold table as the specification states it:
>= 90 gives A+, >= 80 gives A, >= 70 gives B+, >= 60 gives B, >= 50 gives
C+, >= 40 gives C, otherwise F. -/
def specLetterTable (p : ℚ) : String :=
  if p ≥ 90 then "A+"
  else if p ≥ 80 then "A"
  else if p ≥ 70 then "B+"
  else if p ≥ 60 then "B"
  else if p ≥ 50 then "C+"
  else if p ≥ 40 then "C"
  else "F"

/-- `round(x, 2)` on the exact value: round to the nearest hundredth. -/
def round2 (x : ℚ) : ℚ :=
  (round (x * 100) : ℤ) / 100

/-- `calculate_attendance_percentage` from `api/views.py`: count the
student's attendance rows, return 0 when there are none, otherwise the
share of rows whose status is in `['present', 'late']`, times 100, rounded
to two decimals. -/
def calculate_attendance_percentage (db : DB) (s : StudentRec) : ℚ :=
  let total_days := (db.attendance.filter (fun r => r.studentId = s.id)).length
  if total_days = 0 then 0
  else
    let present_days := (db.attendance.filter (fun r =>
      r.studentId = s.id && ["present", "late"].contains r.status)).length
    round2 (((present_days : ℚ) / (total_days : ℚ)) * 100)

/-- The attendance statistic as the specification states it: with `t` the
student's total attendance rows and `p` those whose status is `present` or
`late`, the result is `round(100 * p / t, 2)`, and 0 when `t = 0`. -/
def specAttendancePercentage (db : DB) (s : StudentRec) : ℚ :=
  let t := (db.attendance.filter (fun r => r.studentId = s.id)).length
  let p := (db.attendance.filter (fun r =>
    r.studentId = s.id && (r.status = "present" || r.status = "late"))).length
  if t = 0 then 0 else round2 (100 * (p : ℚ) / (t : ℚ))

namespace GradeSerializer

/-- `GradeSerializer.validate_marks_obtained` from `api/serializers.py`:
the check runs only when the incoming payload carries an `assignment_id`
that resolves to an existing assignment; then marks strictly above
`total_marks` raise a validation error on the `marks_obtained` field, and
in every other case the value passes through unchanged. -/
def validate_marks_obtained (db : DB) (payloadAssignmentId : Option Nat) (value : ℚ) :
    Except String ℚ :=
  match payloadAssignmentId with
  | none => .ok value
  | some aid =>
    match db.assignments.find? (fun a => a.id = aid) with
    | some a =>
      if value > (a.total_marks : ℚ) then
        .error "marks_obtained: Marks obtained cannot exceed total marks"
      else .ok value
    | none => .ok value

end GradeSerializer

namespace GradeViewSet

/-- The grade update path of `GradeViewSet` (`api/views.py` together with
`GradeSerializer`, `api/serializers.py`): run field validation on the
incoming `marks_obtained` against the payload's `assignment_id` (absent on
a partial update that sends only marks), then persist through
`Grade.save`, which recomputes the letter; `a` is the stored row's
assignment. -/
def update_marks (db : DB) (g : GradeRec) (a : AssignmentRec)
    (payloadAssignmentId : Option Nat) (newMarks : ℚ) : Except String GradeRec :=
  match GradeSerializer.validate_marks_obtained db payloadAssignmentId newMarks with
  | .error e => .error e
  | .ok v =>
    match Grade.save { g with marks_obtained := v } a with
    | some g2 => .ok g2
    | none => .error "division by zero"

end GradeViewSet

/-- Outcome of a create request: 403 denial, 201 with the created row, a
`TypeError` raised by the model constructor (surfacing as HTTP 500, nothing
written), or a storage-layer integrity fault. -/
inductive CreateOutcome (α : Type) where
  | forbidden : CreateOutcome α
  | created : α → CreateOutcome α
  | typeError : CreateOutcome α
  | dbError : CreateOutcome α
deriving DecidableEq, Repr

namespace AssignmentViewSet

/-- The keys certainly present in `AssignmentSerializer`'s `validated_data`
when `Assignment.objects.create(**validated_data)` runs: the serializer's
required writable fields (`title`, `description`, `subject_id`, `class_id`,
`total_marks`, `due_date`), plus the `teacher` instance that
`perform_create`/`create` add when the caller has a Teacher profile.
Unlike `StudentSerializer.create`, nothing pops `class_id` or remaps it to
the model attname `class_assigned_id`.  (Optional writable fields can add
further keys; they are all valid model kwargs and cannot remove
`class_id`.) -/
def create_kwargs (hasTeacherProfile : Bool) : List String :=
  if hasTeacherProfile then
    ["title", "description", "subject_id", "class_id", "total_marks", "due_date", "teacher"]
  else
    ["title", "description", "subject_id", "class_id", "total_marks", "due_date"]

/-- The keyword arguments `Assignment.__init__` accepts: the model's field
names and foreign-key attnames from `api/models.py`; any other key makes
Django's `Model.__init__` raise `TypeError`. -/
def assignment_model_kwargs : List String :=
  ["id", "title", "description", "subject", "subject_id", "class_assigned",
   "class_assigned_id", "teacher", "teacher_id", "assignment_type",
   "total_marks", "due_date", "instructions", "is_active", "created_at",
   "updated_at"]

/-- The assignment create path from `api/views.py` and `api/serializers.py`:
the only permission gate on create is `AssignmentPermission.has_permission`
(authentication); the object-level check is not invoked for creates.
`AssignmentSerializer.create` then calls
`Assignment.objects.create(**validated_data)`; if any key of
`validated_data` is not an accepted model kwarg the constructor raises
`TypeError` (HTTP 500) and nothing is written; otherwise the row is created
with `teacher` set from the caller's profile (a caller without one would
leave the non-null `teacher` column unset, an integrity fault). -/
def create_assignment (db : DB) (authenticated : Bool) (uid : UserId)
    (newId classId totalMarks : Nat) : CreateOutcome AssignmentRec :=
  if AssignmentPermission.has_permission authenticated = false then .forbidden
  else if (create_kwargs (teacherProfileOf db uid).isSome).any
      (fun k => !(assignment_model_kwargs.contains k)) then .typeError
  else
    match teacherProfileOf db uid with
    | some t => .created { id := newId, class_assigned := classId,
                           teacherId := t.id, total_marks := totalMarks }
    | none => .dbError

end AssignmentViewSet

/-- Replace the role on the user's profile row:
`profile.role = r; profile.save()`. -/
def setProfileRole (db : DB) (uid : UserId) (r : String) : DB :=
  { db with profiles := db.profiles.map (fun p =>
      if p.userId = uid then { p with role := r } else p) }

/-- The validated field payload of a registration request, after
`UserRegistrationSerializer.validate` has enforced the role-conditional
required fields. -/
structure RegistrationRequest where
  newUserId : UserId
  role : String
  employee_id : String
  student_id : String
  newProfileRowId : Nat
deriving DecidableEq, Repr

namespace UserRegistrationSerializer

/-- The write sequence of `UserRegistrationSerializer.create` from
`api/serializers.py`: `User.objects.create_user` (whose `post_save` signal
inserts a Profile row with the default role `student`), then the profile
role update, then — for role teacher or student — the `Teacher.objects.create`
or `Student.objects.create` call, which raises an integrity error when the
unique `employee_id` / `student_id` collides with an existing row. -/
def create_steps (db : DB) (req : RegistrationRequest) : Except String DB :=
  let db1 : DB := { db with
    users := req.newUserId :: db.users,
    profiles := { userId := req.newUserId, role := "student" } :: db.profiles }
  let db2 := setProfileRole db1 req.newUserId req.role
  if req.role = "teacher" then
    if db2.teachers.any (fun t => t.employee_id = req.employee_id) then
      .error "IntegrityError: duplicate employee_id"
    else
      .ok { db2 with teachers :=
        { id := req.newProfileRowId, userId := req.newUserId,
          employee_id := req.employee_id } :: db2.teachers }
  else if req.role = "student" then
    if db2.students.any (fun s => s.student_id = req.student_id) then
      .error "IntegrityError: duplicate student_id"
    else
      .ok { db2 with students :=
        { id := req.newProfileRowId, userId := req.newUserId,
          student_id := req.student_id, class_enrolled := none } :: db2.students }
  else .ok db2

end UserRegistrationSerializer

/-- Modelled from the spec: the transactional wrapper around registration is
not under `src/` (it lives in the Django project settings / storage-engine
configuration, of which only `api/` is available); per the spec,
"registration creates Account+Role+Profile as one unit — if the profile
creation fails, the Account creation must be rolled back", so a failing
write sequence leaves the database exactly as it was. -/
def register_user (db : DB) (req : RegistrationRequest) : Option String × DB :=
  match UserRegistrationSerializer.create_steps db req with
  | .ok db2 => (none, db2)
  | .error e => (some e, db)

namespace UserToTeacherSerializer

/-- `UserToTeacherSerializer.validate_user_id` from `api/serializers.py`:
reject a missing user, reject a user that already has a Teacher profile,
otherwise accept. -/
def validate_user_id (db : DB) (value : UserId) : Except String UserId :=
  if value ∈ db.users then
    if (teacherProfileOf db value).isSome then
      .error "User already has a teacher profile"
    else .ok value
  else .error "User does not exist"

end UserToTeacherSerializer

namespace UserToStudentSerializer

/-- `UserToStudentSerializer.validate_user_id` from `api/serializers.py`:
reject a missing user, reject a user that already has a Student profile,
otherwise accept. -/
def validate_user_id (db : DB) (value : UserId) : Except String UserId :=
  if value ∈ db.users then
    if (studentProfileOf db value).isSome then
      .error "User already has a student profile"
    else .ok value
  else .error "User does not exist"

end UserToStudentSerializer

/-- `convert_user_to_teacher` from `api/views.py`: `serializer.is_valid()`
runs `validate_user_id`; a validation error returns 400 and writes nothing,
otherwise `create` flips the profile role to teacher and inserts the
Teacher row. -/
def convert_user_to_teacher (db : DB) (user_id : UserId) (newRowId : Nat)
    (emp : String) : Option String × DB :=
  match UserToTeacherSerializer.validate_user_id db user_id with
  | .error e => (some e, db)
  | .ok _ =>
    let db1 := setProfileRole db user_id "teacher"
    (none, { db1 with teachers :=
      { id := newRowId, userId := user_id, employee_id := emp } :: db1.teachers })

/-- `convert_user_to_student` from `api/views.py`: `serializer.is_valid()`
runs `validate_user_id`; a validation error returns 400 and writes nothing,
otherwise `create` flips the profile role to student and inserts the
Student row. -/
def convert_user_to_student (db : DB) (user_id : UserId) (newRowId : Nat)
    (sid : String) : Option String × DB :=
  match UserToStudentSerializer.validate_user_id db user_id with
  | .error e => (some e, db)
  | .ok _ =>
    let db1 := setProfileRole db user_id "student"
    (none, { db1 with students :=
      { id := newRowId, userId := user_id, student_id := sid,
        class_enrolled := none } :: db1.students })

/-! Concrete database states used by the counterexamples and witnesses. -/

/-- Fixture for the teacher/assignment scoping mismatch: two teachers, a
class and an assignment both owned by the second teacher. -/
def scopeDB : DB :=
  { users := [1, 2],
    profiles := [{ userId := 1, role := "teacher" }, { userId := 2, role := "teacher" }],
    teachers := [{ id := 101, userId := 1, employee_id := "E1" },
                 { id := 102, userId := 2, employee_id := "E2" }],
    classes := [{ id := 201, teacherId := some 102 }],
    students := [],
    assignments := [{ id := 301, class_assigned := 201, teacherId := 102, total_marks := 50 }],
    grades := [],
    attendance := [] }

/-- The assignment of `scopeDB`, owned by teacher 102. -/
def scopeAsm : AssignmentRec :=
  { id := 301, class_assigned := 201, teacherId := 102, total_marks := 50 }

/-- Fixture for the staff object-level checks: a staff caller plus one row
of each record type. -/
def staffDB : DB :=
  { users := [5, 2],
    profiles := [{ userId := 5, role := "staff" }, { userId := 2, role := "teacher" }],
    teachers := [{ id := 102, userId := 2, employee_id := "E2" }],
    classes := [{ id := 201, teacherId := some 102 }],
    students := [{ id := 501, userId := 9, student_id := "S1", class_enrolled := some 201 }],
    assignments := [{ id := 301, class_assigned := 201, teacherId := 102, total_marks := 50 }],
    grades := [{ studentId := 501, assignmentId := 301, marks_obtained := 40, grade_letter := some "A" }],
    attendance := [{ studentId := 501, class_attended := 201, status := "present" }] }

/-- The assignment of `staffDB`. -/
def staffAsm : AssignmentRec :=
  { id := 301, class_assigned := 201, teacherId := 102, total_marks := 50 }

/-- Fixture for the unassigned-teacher create: teacher 101 (user 1) has no
classes; class 202 belongs to teacher 102 and has one enrolled student. -/
def unassignedDB : DB :=
  { users := [1, 2, 9],
    profiles := [{ userId := 1, role := "teacher" }, { userId := 2, role := "teacher" },
                 { userId := 9, role := "student" }],
    teachers := [{ id := 101, userId := 1, employee_id := "E1" },
                 { id := 102, userId := 2, employee_id := "E2" }],
    classes := [{ id := 202, teacherId := some 102 }],
    students := [{ id := 501, userId := 9, student_id := "S1", class_enrolled := some 202 }],
    assignments := [],
    grades := [],
    attendance := [] }

/-- Fixture for the grade examples: one assignment out of 50 marks and one
graded row of 40 marks. -/
def gradeDB : DB :=
  { users := [], profiles := [], teachers := [], classes := [], students := [],
    assignments := [{ id := 301, class_assigned := 201, teacherId := 101, total_marks := 50 }],
    grades := [], attendance := [] }

/-- The 50-mark assignment of `gradeDB`. -/
def asm50 : AssignmentRec :=
  { id := 301, class_assigned := 201, teacherId := 101, total_marks := 50 }

/-- A grade of 45 marks against `asm50` (the spec's worked example). -/
def grade45 : GradeRec :=
  { studentId := 501, assignmentId := 301, marks_obtained := 45, grade_letter := none }

/-- A stored grade of 40 marks against `asm50`, used for the over-marks
partial update. -/
def grade40 : GradeRec :=
  { studentId := 501, assignmentId := 301, marks_obtained := 40, grade_letter := some "A" }

/-- An assignment whose `total_marks` is zero. -/
def asm0 : AssignmentRec :=
  { id := 302, class_assigned := 201, teacherId := 101, total_marks := 0 }

/-- Fixture for the missing-profile edge case: user 3 has role teacher but
no Teacher row; one assignment exists. -/
def noProfileDB : DB :=
  { users := [3, 2],
    profiles := [{ userId := 3, role := "teacher" }, { userId := 2, role := "teacher" }],
    teachers := [{ id := 102, userId := 2, employee_id := "E2" }],
    classes := [{ id := 201, teacherId := some 102 }],
    students := [{ id := 501, userId := 9, student_id := "S1", class_enrolled := some 201 }],
    assignments := [{ id := 301, class_assigned := 201, teacherId := 102, total_marks := 50 }],
    grades := [],
    attendance := [] }

/-- The assignment of `noProfileDB`. -/
def noProfileAsm : AssignmentRec :=
  { id := 301, class_assigned := 201, teacherId := 102, total_marks := 50 }

/-- Fixture for registration: an existing teacher already holds employee id
`E1`. -/
def regDB : DB :=
  { users := [1],
    profiles := [{ userId := 1, role := "teacher" }],
    teachers := [{ id := 101, userId := 1, employee_id := "E1" }],
    classes := [], students := [], assignments := [], grades := [], attendance := [] }

/-- A registration request for a new teacher account whose employee id
collides with the existing `E1` row. -/
def regReqClash : RegistrationRequest :=
  { newUserId := 7, role := "teacher", employee_id := "E1", student_id := "",
    newProfileRowId := 107 }

/-- Fixture for conversion: user 1 already has a Teacher row, user 9 already
has a Student row. -/
def convDB : DB :=
  { users := [1, 9],
    profiles := [{ userId := 1, role := "teacher" }, { userId := 9, role := "student" }],
    teachers := [{ id := 101, userId := 1, employee_id := "E1" }],
    classes := [],
    students := [{ id := 501, userId := 9, student_id := "S1", class_enrolled := none }],
    assignments := [], grades := [], attendance := [] }

/-- Fixture for the attendance statistic: student 501 has four attendance
rows (present, late, absent, excused), student 502 has none. -/
def attDB : DB :=
  { users := [], profiles := [], teachers := [], classes := [],
    students := [{ id := 501, userId := 9, student_id := "S1", class_enrolled := some 201 },
                 { id := 502, userId := 10, student_id := "S2", class_enrolled := some 201 }],
    assignments := [], grades := [],
    attendance := [{ studentId := 501, class_attended := 201, status := "present" },
                   { studentId := 501, class_attended := 201, status := "late" },
                   { studentId := 501, class_attended := 201, status := "absent" },
                   { studentId := 501, class_attended := 201, status := "excused" }] }

/-- The student of `attDB` with four attendance rows. -/
def attStudent : StudentRec :=
  { id := 501, userId := 9, student_id := "S1", class_enrolled := some 201 }

/-- The student of `attDB` with no attendance rows. -/
def attStudentNone : StudentRec :=
  { id := 502, userId := 10, student_id := "S2", class_enrolled := some 201 }

/-! Claim theorems. -/

/-- C1: for every Grade record with a nonzero-total assignment, `Grade.save`
stores exactly the letter the fixed threshold table assigns to
`marks_obtained / total_marks * 100`. -/
theorem grade_save_matches_threshold_table (g : GradeRec) (a : AssignmentRec)
    (h : a.total_marks ≠ 0) :
    Grade.save g a =
      some { g with grade_letter := some (specLetterTable ((g.marks_obtained / (a.total_marks : ℚ)) * 100)) } := by
  simp [Grade.save, Grade.calculate_percentage, specLetterTable, h]

/-- Witness for C1: 45 marks out of 50 give percentage 90 and letter A+. -/
theorem grade_save_matches_threshold_table_witness :
    Grade.calculate_percentage grade45 asm50 = some 90 ∧
    Grade.save grade45 asm50 = some { grade45 with grade_letter := some "A+" } := by
  constructor
  · norm_num [Grade.calculate_percentage, grade45, asm50]
  · rw [grade_save_matches_threshold_table grade45 asm50 (by norm_num [asm50])]
    norm_num [specLetterTable, grade45, asm50]

/-- C5: for every Grade whose assignment has `total_marks = 0`, the
percentage computation has no guard and raises the division fault, which
`Grade.save` propagates on every persist. -/
theorem grade_zero_total_division_fault (g : GradeRec) (a : AssignmentRec)
    (h : a.total_marks = 0) :
    Grade.calculate_percentage g a = none ∧ Grade.save g a = none := by
  simp [Grade.save, Grade.calculate_percentage, h]

/-- Witness for C5: a concrete grade against the zero-total assignment. -/
theorem grade_zero_total_division_fault_witness :
    Grade.calculate_percentage grade45 asm0 = none ∧ Grade.save grade45 asm0 = none :=
  grade_zero_total_division_fault grade45 asm0 rfl

/-- C10: the dashboard attendance statistic equals `round(100 * p / t, 2)`
with `t` the student's attendance rows and `p` those whose status is
`present` or `late`, and it is 0 when the student has no rows, so the
division is guarded. -/
theorem attendance_percentage_formula (db : DB) (s : StudentRec) :
    calculate_attendance_percentage db s = specAttendancePercentage db s ∧
    ((db.attendance.filter (fun r => r.studentId = s.id)).length = 0 →
      calculate_attendance_percentage db s = 0) := by
  have hfilter : (db.attendance.filter (fun r =>
      r.studentId = s.id && ["present", "late"].contains r.status)) =
      (db.attendance.filter (fun r =>
      r.studentId = s.id && (r.status = "present" || r.status = "late"))) := by
    apply List.filter_congr
    intro r _
    by_cases h1 : r.status = "present" <;> by_cases h2 : r.status = "late" <;>
      simp [h1, h2, List.contains_cons]
  constructor
  · unfold calculate_attendance_percentage specAttendancePercentage
    rw [hfilter]
    by_cases ht : (db.attendance.filter (fun r => r.studentId = s.id)).length = 0
    · simp [ht]
    · simp only [ht, if_false]
      congr 1
      rw [div_mul_eq_mul_div, mul_comm]
  · intro h
    simp [calculate_attendance_percentage, h]

/-- Witness for C10: the student with rows present/late/absent/excused gets
exactly 50, and the student with no rows gets 0. -/
theorem attendance_percentage_formula_witness :
    calculate_attendance_percentage attDB attStudentNone = 0 ∧
    calculate_attendance_percentage attDB attStudent = 50 := by
  constructor
  · exact (attendance_percentage_formula attDB attStudentNone).2 (by rfl)
  · rw [(attendance_percentage_formula attDB attStudent).1]
    have ht : (attDB.attendance.filter (fun r => r.studentId = attStudent.id)).length = 4 := by
      decide
    have hp : (attDB.attendance.filter (fun r =>
        r.studentId = attStudent.id && (r.status = "present" || r.status = "late"))).length = 2 := by
      decide
    simp only [specAttendancePercentage, ht, hp]
    norm_num [round2]

/-- C2 counterexample: teacher 1 (user 1) lists assignments and receives the
assignment owned by teacher 102, yet the object-level rule denies user 1
even a safe request on that record — the two layers disagree. -/
theorem assignment_list_contains_denied_record :
    AssignmentViewSet.get_queryset scopeDB 1 = some [scopeAsm] ∧
    AssignmentPermission.has_object_permission scopeDB true 1 scopeAsm = false := by
  decide

/-- C2 amended: for every role, every resource's list result contains only
records the role's object-level rule permits — Student, Teacher, Class,
Grade and Attendance lists for all roles, Assignment lists for every
non-teacher role — with one exception: a teacher-role caller's Assignment
list is the whole table, unrestricted by the ownership rule. -/
theorem list_results_respect_object_rules (db : DB) (uid : UserId) (p : ProfileRec)
    (hp : profileOf db uid = some p) :
    (∀ l, StudentViewSet.get_queryset db uid = some l →
      ∀ s ∈ l, StudentPermission.has_object_permission db true uid s = true) ∧
    (∀ t ∈ TeacherViewSet.get_queryset db,
      TeacherPermission.has_object_permission db true uid t = true) ∧
    (∀ l, ClassViewSet.get_queryset db uid = some l →
      ∀ c ∈ l, ClassPermission.has_object_permission db true uid c = true) ∧
    (∀ l, GradeViewSet.get_queryset db uid = some l →
      ∀ g ∈ l, GradePermission.has_object_permission db true uid g = true) ∧
    (∀ l, AttendanceViewSet.get_queryset db uid = some l →
      ∀ r ∈ l, AttendancePermission.has_object_permission db true uid r = true) ∧
    (p.role ≠ "teacher" → ∀ l, AssignmentViewSet.get_queryset db uid = some l →
      ∀ a ∈ l, AssignmentPermission.has_object_permission db true uid a = true) ∧
    (p.role = "teacher" → AssignmentViewSet.get_queryset db uid = some db.assignments) := by
  have hT : ∀ t ∈ TeacherViewSet.get_queryset db,
      TeacherPermission.has_object_permission db true uid t = true := by
    intro t _
    simp [TeacherPermission.has_object_permission, hp]
  by_cases h1 : p.role = "admin"
  · refine ⟨?_, hT, ?_, ?_, ?_, ?_, ?_⟩
    · intro l hl s hs
      simp [StudentViewSet.get_queryset, hp, h1] at hl
      subst hl
      simp [StudentPermission.has_object_permission, hp, h1]
    · intro l hl c hc
      simp [ClassViewSet.get_queryset, hp, h1] at hl
      subst hl
      simp [ClassPermission.has_object_permission, hp, h1]
    · intro l hl g hg
      simp [GradeViewSet.get_queryset, hp, h1] at hl
      subst hl
      simp [GradePermission.has_object_permission, hp, h1]
    · intro l hl r hr
      simp [AttendanceViewSet.get_queryset, hp, h1] at hl
      subst hl
      simp [AttendancePermission.has_object_permission, hp, h1]
    · intro _ l hl a ha
      simp [AssignmentViewSet.get_queryset, hp, h1] at hl
      subst hl
      simp [AssignmentPermission.has_object_permission, hp, h1]
    · intro hteach
      rw [h1] at hteach
      exact absurd hteach (by decide)
  · by_cases h2 : p.role = "teacher"
    · refine ⟨?_, hT, ?_, ?_, ?_, ?_, ?_⟩
      · intro l hl s hs
        simp [StudentViewSet.get_queryset, hp, h2] at hl
        cases ht : teacherProfileOf db uid with
        | none =>
          simp [ht] at hl
          subst hl
          simp at hs
        | some t =>
          simp [ht] at hl
          subst hl
          rw [List.mem_filter] at hs
          simp [StudentPermission.has_object_permission, hp, h2, ht, hs.2]
      · intro l hl c hc
        simp [ClassViewSet.get_queryset, hp, h2] at hl
        cases ht : teacherProfileOf db uid with
        | none =>
          simp [ht] at hl
          subst hl
          simp at hc
        | some t =>
          simp [ht] at hl
          subst hl
          rw [List.mem_filter] at hc
          have hcond := hc.2
          simp at hcond
          simp [ClassPermission.has_object_permission, hp, h2, ht, hcond]
      · intro l hl g hg
        simp [GradeViewSet.get_queryset, hp, h2] at hl
        cases ht : teacherProfileOf db uid with
        | none =>
          simp [ht] at hl
          subst hl
          simp at hg
        | some t =>
          simp [ht] at hl
          subst hl
          rw [List.mem_filter] at hg
          have hcond := hg.2
          simp [GradePermission.has_object_permission, hp, h2, ht, hcond]
      · intro l hl r hr
        simp [AttendanceViewSet.get_queryset, hp, h2] at hl
        cases ht : teacherProfileOf db uid with
        | none =>
          simp [ht] at hl
          subst hl
          simp at hr
        | some t =>
          simp [ht] at hl
          subst hl
          rw [List.mem_filter] at hr
          have hcond := hr.2
          simp [AttendancePermission.has_object_permission, hp, h2, ht, hcond]
      · intro hne
        exact absurd h2 hne
      · intro _
        simp [AssignmentViewSet.get_queryset, hp, h2]
    · by_cases h3 : p.role = "staff"
      · refine ⟨?_, hT, ?_, ?_, ?_, ?_, ?_⟩
        · intro l hl s hs
          simp [StudentViewSet.get_queryset, hp, h3] at hl
          subst hl
          simp [StudentPermission.has_object_permission, hp, h3]
        · intro l hl c hc
          simp [ClassViewSet.get_queryset, hp, h3] at hl
          subst hl
          simp [ClassPermission.has_object_permission, hp, h3]
        · intro l hl g hg
          simp [GradeViewSet.get_queryset, hp, h3] at hl
          subst hl
          simp at hg
        · intro l hl r hr
          simp [AttendanceViewSet.get_queryset, hp, h3] at hl
          subst hl
          simp at hr
        · intro _ l hl a ha
          simp [AssignmentViewSet.get_queryset, hp, h3] at hl
          subst hl
          simp at ha
        · intro hteach
          exact absurd hteach h2
      · by_cases h4 : p.role = "student"
        · refine ⟨?_, hT, ?_, ?_, ?_, ?_, ?_⟩
          · intro l hl s hs
            simp [StudentViewSet.get_queryset, hp, h4] at hl
            cases hsp : studentProfileOf db uid with
            | none =>
              simp [hsp] at hl
              subst hl
              simp at hs
            | some sp =>
              simp [hsp] at hl
              subst hl
              rw [List.mem_filter] at hs
              simp [StudentPermission.has_object_permission, hp, h4, hs.2]
          · intro l hl c hc
            simp [ClassViewSet.get_queryset, hp, h4] at hl
            cases hsp : studentProfileOf db uid with
            | none =>
              simp [hsp] at hl
              subst hl
              simp at hc
            | some sp =>
              cases hce : sp.class_enrolled with
              | none =>
                simp [hsp, hce] at hl
                subst hl
                simp at hc
              | some cid =>
                simp [hsp, hce] at hl
                subst hl
                rw [List.mem_filter] at hc
                have hcond := hc.2
                simp at hcond
                simp [ClassPermission.has_object_permission, hp, h4, hsp, hce, hcond]
          · intro l hl g hg
            simp [GradeViewSet.get_queryset, hp, h4] at hl
            cases hsp : studentProfileOf db uid with
            | none =>
              simp [hsp] at hl
              subst hl
              simp at hg
            | some sp =>
              simp [hsp] at hl
              subst hl
              rw [List.mem_filter] at hg
              simp [GradePermission.has_object_permission, hp, h4, hsp, hg.2]
          · intro l hl r hr
            simp [AttendanceViewSet.get_queryset, hp, h4] at hl
            cases hsp : studentProfileOf db uid with
            | none =>
              simp [hsp] at hl
              subst hl
              simp at hr
            | some sp =>
              simp [hsp] at hl
              subst hl
              rw [List.mem_filter] at hr
              simp [AttendancePermission.has_object_permission, hp, h4, hsp, hr.2]
          · intro _ l hl a ha
            simp [AssignmentViewSet.get_queryset, hp, h4] at hl
            cases hsp : studentProfileOf db uid with
            | none =>
              simp [hsp] at hl
              subst hl
              simp at ha
            | some sp =>
              cases hce : sp.class_enrolled with
              | none =>
                simp [hsp, hce] at hl
                subst hl
                simp at ha
              | some cid =>
                simp [hsp, hce] at hl
                subst hl
                rw [List.mem_filter] at ha
                have hcond := ha.2
                simp at hcond
                simp [AssignmentPermission.has_object_permission, hp, h4, hsp, hce, hcond]
          · intro hteach
            exact absurd hteach h2
        · refine ⟨?_, hT, ?_, ?_, ?_, ?_, ?_⟩
          · intro l hl s hs
            simp [StudentViewSet.get_queryset, hp, h1, h2, h3, h4] at hl
            subst hl
            simp at hs
          · intro l hl c hc
            simp [ClassViewSet.get_queryset, hp, h1, h2, h3, h4] at hl
            subst hl
            simp at hc
          · intro l hl g hg
            simp [GradeViewSet.get_queryset, hp, h1, h2, h4] at hl
            subst hl
            simp at hg
          · intro l hl r hr
            simp [AttendanceViewSet.get_queryset, hp, h1, h2, h4] at hl
            subst hl
            simp at hr
          · intro _ l hl a ha
            simp [AssignmentViewSet.get_queryset, hp, h1, h2, h4] at hl
            subst hl
            simp at ha
          · intro hteach
            exact absurd hteach h2

/-- Witness for the C2 amended theorem: in `scopeDB`, teacher-role user 1
gets the whole assignment table from the scoping layer; in `staffDB`,
teacher 2's Class list respects the object rule on its one element. -/
theorem list_results_respect_object_rules_witness :
    AssignmentViewSet.get_queryset scopeDB 1 = some scopeDB.assignments ∧
    ClassPermission.has_object_permission staffDB true 2
      { id := 201, teacherId := some 102 } = true := by
  constructor
  · exact (list_results_respect_object_rules scopeDB 1
      { userId := 1, role := "teacher" } rfl).2.2.2.2.2.2 rfl
  · exact (list_results_respect_object_rules staffDB 2
      { userId := 2, role := "teacher" } rfl).2.2.1
      [{ id := 201, teacherId := some 102 }] (by decide)
      { id := 201, teacherId := some 102 } (by decide)

/-- C3 counterexample: a staff caller's safe (read) request on an assignment
is denied by the object-level check. -/
theorem staff_assignment_read_denied :
    AssignmentPermission.has_object_permission staffDB true 5 staffAsm = false := by
  decide

/-- C3 amended: a staff caller is allowed safe requests by the Student,
Teacher and Class object-level checks, but the Assignment, Grade and
Attendance checks deny staff every request, safe ones included. -/
theorem staff_object_access_per_resource (db : DB) (uid : UserId) (p : ProfileRec)
    (hp : profileOf db uid = some p) (hr : p.role = "staff") :
    (∀ obj : StudentRec, StudentPermission.has_object_permission db true uid obj = true) ∧
    (∀ obj : TeacherRec, TeacherPermission.has_object_permission db true uid obj = true) ∧
    (∀ obj : ClassRec, ClassPermission.has_object_permission db true uid obj = true) ∧
    (∀ (safe : Bool) (obj : AssignmentRec),
      AssignmentPermission.has_object_permission db safe uid obj = false) ∧
    (∀ (safe : Bool) (obj : GradeRec),
      GradePermission.has_object_permission db safe uid obj = false) ∧
    (∀ (safe : Bool) (obj : AttendanceRec),
      AttendancePermission.has_object_permission db safe uid obj = false) := by
  refine ⟨fun o => ?_, fun o => ?_, fun o => ?_, fun b o => ?_, fun b o => ?_, fun b o => ?_⟩ <;>
    simp [StudentPermission.has_object_permission, TeacherPermission.has_object_permission,
          ClassPermission.has_object_permission, AssignmentPermission.has_object_permission,
          GradePermission.has_object_permission, AttendancePermission.has_object_permission,
          hp, hr]

/-- Witness for the C3 amended theorem: staff user 5 of `staffDB` may read
the student row but is denied on the assignment even for a read. -/
theorem staff_object_access_per_resource_witness :
    StudentPermission.has_object_permission staffDB true 5
      { id := 501, userId := 9, student_id := "S1", class_enrolled := some 201 } = true ∧
    AssignmentPermission.has_object_permission staffDB false 5 staffAsm = false := by
  have h := staff_object_access_per_resource staffDB 5 { userId := 5, role := "staff" } rfl rfl
  exact ⟨h.1 _, h.2.2.2.1 false staffAsm⟩

/-- C4: teacher 101 (user 1) is not assigned to class 202; the create is
still not rejected by the permission layer (no 403 — the only gate is
authentication), and instead dies with the `TypeError` of the unmapped
`class_id` kwarg (HTTP 500, nothing written); the Students list of that
class is empty for this caller even though the class has an enrolled
student. -/
theorem unassigned_teacher_create_not_rejected :
    optClassInList unassignedDB { id := 101, userId := 1, employee_id := "E1" } (some 202) = false ∧
    AssignmentViewSet.create_assignment unassignedDB true 1 301 202 50 = .typeError ∧
    AssignmentViewSet.create_assignment unassignedDB true 1 301 202 50 ≠ .forbidden ∧
    StudentViewSet.get_queryset unassignedDB 1 = some [] ∧
    unassignedDB.students ≠ [] := by
  decide

/-- C6: registration is atomic — when the write sequence fails, the state is
exactly the pre-registration state (no Account without its profile
persists); when it succeeds, the Account, its role Profile, and the
Teacher/Student row exist together. -/
theorem registration_atomic (db : DB) (req : RegistrationRequest)
    (hnew : req.newUserId ∉ db.users) :
    (∀ e db2, register_user db req = (some e, db2) →
      db2 = db ∧ req.newUserId ∉ db2.users) ∧
    (∀ db2, register_user db req = (none, db2) →
      req.newUserId ∈ db2.users ∧
      (∃ p ∈ db2.profiles, p.userId = req.newUserId ∧ p.role = req.role) ∧
      (req.role = "teacher" → ∃ t ∈ db2.teachers, t.userId = req.newUserId) ∧
      (req.role = "student" → ∃ s ∈ db2.students, s.userId = req.newUserId)) := by
  by_cases hrt : req.role = "teacher"
  · by_cases hdup : db.teachers.any (fun t => t.employee_id = req.employee_id) = true
    · constructor
      · intro e db2 heq
        simp [register_user, UserRegistrationSerializer.create_steps, setProfileRole,
              hrt, hdup] at heq
        exact ⟨heq.2.symm, heq.2 ▸ hnew⟩
      · intro db2 heq
        simp [register_user, UserRegistrationSerializer.create_steps, setProfileRole,
              hrt, hdup] at heq
    · constructor
      · intro e db2 heq
        simp [register_user, UserRegistrationSerializer.create_steps, setProfileRole,
              hrt, hdup] at heq
      · intro db2 heq
        simp [register_user, UserRegistrationSerializer.create_steps, setProfileRole,
              hrt, hdup] at heq
        subst heq
        refine ⟨by simp, ⟨{ userId := req.newUserId, role := req.role }, by simp [hrt], rfl, rfl⟩,
                fun _ => ⟨{ id := req.newProfileRowId, userId := req.newUserId,
                            employee_id := req.employee_id }, by simp, rfl⟩,
                fun hst => absurd (hrt ▸ hst) (by simp)⟩
  · by_cases hrs : req.role = "student"
    · by_cases hdup : db.students.any (fun s => s.student_id = req.student_id) = true
      · constructor
        · intro e db2 heq
          simp [register_user, UserRegistrationSerializer.create_steps, setProfileRole,
                hrt, hrs, hdup] at heq
          exact ⟨heq.2.symm, heq.2 ▸ hnew⟩
        · intro db2 heq
          simp [register_user, UserRegistrationSerializer.create_steps, setProfileRole,
                hrt, hrs, hdup] at heq
      · constructor
        · intro e db2 heq
          simp [register_user, UserRegistrationSerializer.create_steps, setProfileRole,
                hrt, hrs, hdup] at heq
        · intro db2 heq
          simp [register_user, UserRegistrationSerializer.create_steps, setProfileRole,
                hrt, hrs, hdup] at heq
          subst heq
          refine ⟨by simp, ⟨{ userId := req.newUserId, role := req.role }, by simp [hrs], rfl, rfl⟩,
                  fun hte => absurd (hrs ▸ hte) (by simp),
                  fun _ => ⟨{ id := req.newProfileRowId, userId := req.newUserId,
                              student_id := req.student_id, class_enrolled := none }, by simp, rfl⟩⟩
    · constructor
      · intro e db2 heq
        simp [register_user, UserRegistrationSerializer.create_steps, setProfileRole,
              hrt, hrs] at heq
      · intro db2 heq
        simp [register_user, UserRegistrationSerializer.create_steps, setProfileRole,
              hrt, hrs] at heq
        subst heq
        exact ⟨by simp, ⟨{ userId := req.newUserId, role := req.role }, by simp, rfl, rfl⟩,
               fun hte => absurd hte hrt, fun hst => absurd hst hrs⟩

/-- Witness for C6: a teacher registration whose employee id collides with
an existing row fails and leaves the database untouched. -/
theorem registration_atomic_witness :
    (register_user regDB regReqClash).1 = some "IntegrityError: duplicate employee_id" ∧
    (register_user regDB regReqClash).2 = regDB := by
  have h := (registration_atomic regDB regReqClash (by decide)).1
    "IntegrityError: duplicate employee_id" (register_user regDB regReqClash).2 (by decide)
  exact ⟨by decide, h.1⟩

/-- C7 counterexample: a partial update that sends only `marks_obtained`
(no `assignment_id` in the payload) bypasses the check, so a grade of 100
marks against the 50-mark assignment is stored (and even lettered A+). -/
theorem grade_update_without_assignment_id_bypasses_check :
    GradeViewSet.update_marks gradeDB grade40 asm50 none 100 =
      .ok { studentId := 501, assignmentId := 301, marks_obtained := 100,
            grade_letter := some "A+" } ∧
    (100 : ℚ) > (asm50.total_marks : ℚ) := by
  constructor
  · norm_num [GradeViewSet.update_marks, GradeSerializer.validate_marks_obtained,
              Grade.save, Grade.calculate_percentage, grade40, asm50]
  · norm_num [asm50]

/-- C7 amended: when the write's payload carries an `assignment_id` that
resolves to an existing assignment, marks exceeding that assignment's total
fail with a validation error naming `marks_obtained`, and nothing is
stored; a payload without `assignment_id` bypasses the check. -/
theorem grade_overmarks_rejected_when_assignment_in_payload (db : DB) (g : GradeRec)
    (a : AssignmentRec) (v : ℚ)
    (hfind : db.assignments.find? (fun x => x.id = a.id) = some a)
    (hv : v > (a.total_marks : ℚ)) :
    GradeSerializer.validate_marks_obtained db (some a.id) v =
      .error "marks_obtained: Marks obtained cannot exceed total marks" ∧
    GradeViewSet.update_marks db g a (some a.id) v =
      .error "marks_obtained: Marks obtained cannot exceed total marks" := by
  constructor <;>
    simp [GradeSerializer.validate_marks_obtained, GradeViewSet.update_marks, hfind, hv]

/-- Witness for the C7 amended theorem: 100 marks against the 50-mark
assignment, with the assignment named in the payload, is rejected. -/
theorem grade_overmarks_rejected_witness :
    GradeViewSet.update_marks gradeDB grade40 asm50 (some asm50.id) 100 =
      .error "marks_obtained: Marks obtained cannot exceed total marks" :=
  (grade_overmarks_rejected_when_assignment_in_payload gradeDB grade40 asm50 100
    (by decide) (by norm_num [asm50])).2

/-- C8 counterexample: user 3 has role teacher but no Teacher row, yet the
Assignment queryset gives it every assignment instead of the empty set
(while the Assignment object rule denies it each one), and the Teacher
object check even allows its safe read instead of denying it. -/
theorem missing_teacher_profile_sees_all_assignments :
    teacherProfileOf noProfileDB 3 = none ∧
    AssignmentViewSet.get_queryset noProfileDB 3 = some [noProfileAsm] ∧
    AssignmentViewSet.get_queryset noProfileDB 3 ≠ some [] ∧
    AssignmentPermission.has_object_permission noProfileDB true 3 noProfileAsm = false ∧
    TeacherPermission.has_object_permission noProfileDB true 3
      { id := 102, userId := 2, employee_id := "E2" } = true := by
  decide

/-- C8 amended: across every object-level check and every query-scoping
computation, a caller whose Role names a missing profile type is denied —
check false, queryset empty — and no exception is raised (all profile
accesses are guarded), with two exceptions: `TeacherPermission` allows
every safe request before consulting the Teacher profile, and the
Assignment queryset's teacher branch never consults it and returns the
whole table (the Teacher queryset is likewise unscoped). -/
theorem missing_profile_handling (db : DB) (uid : UserId) (p : ProfileRec)
    (hp : profileOf db uid = some p) :
    (p.role = "teacher" → teacherProfileOf db uid = none →
      (∀ (b : Bool) (o : StudentRec), StudentPermission.has_object_permission db b uid o = false) ∧
      (∀ (b : Bool) (o : ClassRec), ClassPermission.has_object_permission db b uid o = false) ∧
      (∀ (b : Bool) (o : AssignmentRec), AssignmentPermission.has_object_permission db b uid o = false) ∧
      (∀ (b : Bool) (o : GradeRec), GradePermission.has_object_permission db b uid o = false) ∧
      (∀ (b : Bool) (o : AttendanceRec), AttendancePermission.has_object_permission db b uid o = false) ∧
      (∀ o ∈ db.teachers, TeacherPermission.has_object_permission db false uid o = false) ∧
      (∀ o : TeacherRec, TeacherPermission.has_object_permission db true uid o = true) ∧
      StudentViewSet.get_queryset db uid = some [] ∧
      ClassViewSet.get_queryset db uid = some [] ∧
      GradeViewSet.get_queryset db uid = some [] ∧
      AttendanceViewSet.get_queryset db uid = some [] ∧
      AssignmentViewSet.get_queryset db uid = some db.assignments ∧
      TeacherViewSet.get_queryset db = db.teachers) ∧
    (p.role = "student" → studentProfileOf db uid = none →
      (∀ (b : Bool), ∀ o ∈ db.students, StudentPermission.has_object_permission db b uid o = false) ∧
      (∀ (b : Bool) (o : ClassRec), ClassPermission.has_object_permission db b uid o = false) ∧
      (∀ (b : Bool) (o : AssignmentRec), AssignmentPermission.has_object_permission db b uid o = false) ∧
      (∀ (b : Bool) (o : GradeRec), GradePermission.has_object_permission db b uid o = false) ∧
      (∀ (b : Bool) (o : AttendanceRec), AttendancePermission.has_object_permission db b uid o = false) ∧
      (∀ o : TeacherRec, TeacherPermission.has_object_permission db false uid o = false) ∧
      (∀ o : TeacherRec, TeacherPermission.has_object_permission db true uid o = true) ∧
      StudentViewSet.get_queryset db uid = some [] ∧
      ClassViewSet.get_queryset db uid = some [] ∧
      GradeViewSet.get_queryset db uid = some [] ∧
      AttendanceViewSet.get_queryset db uid = some [] ∧
      AssignmentViewSet.get_queryset db uid = some [] ∧
      TeacherViewSet.get_queryset db = db.teachers) := by
  constructor
  · intro hr ht
    have hne : ∀ t ∈ db.teachers, ¬ (t.userId = uid) := by
      rw [teacherProfileOf] at ht
      intro t htm
      have h0 := List.find?_eq_none.mp ht t htm
      simpa using h0
    refine ⟨fun b o => ?_, fun b o => ?_, fun b o => ?_, fun b o => ?_, fun b o => ?_,
            fun o ho => ?_, fun o => ?_, ?_, ?_, ?_, ?_, ?_, rfl⟩
    · simp [StudentPermission.has_object_permission, hp, hr, ht]
    · simp [ClassPermission.has_object_permission, hp, hr, ht]
    · simp [AssignmentPermission.has_object_permission, hp, hr, ht]
    · simp [GradePermission.has_object_permission, hp, hr, ht]
    · simp [AttendancePermission.has_object_permission, hp, hr, ht]
    · simp [TeacherPermission.has_object_permission, hp, hr, hne o ho]
    · simp [TeacherPermission.has_object_permission, hp, hr]
    · simp [StudentViewSet.get_queryset, hp, hr, ht]
    · simp [ClassViewSet.get_queryset, hp, hr, ht]
    · simp [GradeViewSet.get_queryset, hp, hr, ht]
    · simp [AttendanceViewSet.get_queryset, hp, hr, ht]
    · simp [AssignmentViewSet.get_queryset, hp, hr]
  · intro hr hs
    have hne : ∀ s ∈ db.students, ¬ (s.userId = uid) := by
      rw [studentProfileOf] at hs
      intro s hsm
      have h0 := List.find?_eq_none.mp hs s hsm
      simpa using h0
    refine ⟨fun b o ho => ?_, fun b o => ?_, fun b o => ?_, fun b o => ?_, fun b o => ?_,
            fun o => ?_, fun o => ?_, ?_, ?_, ?_, ?_, ?_, rfl⟩
    · simp [StudentPermission.has_object_permission, hp, hr, hne o ho]
    · cases b <;> simp [ClassPermission.has_object_permission, hp, hr, hs]
    · cases b <;> simp [AssignmentPermission.has_object_permission, hp, hr, hs]
    · cases b <;> simp [GradePermission.has_object_permission, hp, hr, hs]
    · cases b <;> simp [AttendancePermission.has_object_permission, hp, hr, hs]
    · simp [TeacherPermission.has_object_permission, hp, hr]
    · simp [TeacherPermission.has_object_permission, hp, hr]
    · simp [StudentViewSet.get_queryset, hp, hr, hs]
    · simp [ClassViewSet.get_queryset, hp, hr, hs]
    · simp [GradeViewSet.get_queryset, hp, hr, hs]
    · simp [AttendanceViewSet.get_queryset, hp, hr, hs]
    · simp [AssignmentViewSet.get_queryset, hp, hr, hs]

/-- Witness for the C8 amended theorem: in `noProfileDB`, the profileless
teacher-role user 3 gets empty Student and Grade querysets, the whole
Assignment table, and a safe Teacher read allowed. -/
theorem missing_profile_handling_witness :
    StudentViewSet.get_queryset noProfileDB 3 = some [] ∧
    GradeViewSet.get_queryset noProfileDB 3 = some [] ∧
    AssignmentViewSet.get_queryset noProfileDB 3 = some noProfileDB.assignments ∧
    TeacherPermission.has_object_permission noProfileDB true 3
      { id := 102, userId := 2, employee_id := "E2" } = true := by
  obtain ⟨hS, hC, hA, hG, hAt, hTw, hTr, hq1, hq2, hq3, hq4, hq5, hq6⟩ :=
    (missing_profile_handling noProfileDB 3 { userId := 3, role := "teacher" } rfl).1 rfl rfl
  exact ⟨hq1, hq3, hq5, hTr _⟩

/-- C9: converting an account that already holds the target profile type
fails with the validation error and writes nothing — the state returned is
the input state. -/
theorem conversion_rejects_existing_profile (db : DB) (uid : UserId)
    (newTid newSid : Nat) (emp sid : String) (hu : uid ∈ db.users) :
    ((teacherProfileOf db uid).isSome = true →
      convert_user_to_teacher db uid newTid emp =
        (some "User already has a teacher profile", db)) ∧
    ((studentProfileOf db uid).isSome = true →
      convert_user_to_student db uid newSid sid =
        (some "User already has a student profile", db)) := by
  constructor <;> intro h <;>
    simp [convert_user_to_teacher, convert_user_to_student,
          UserToTeacherSerializer.validate_user_id, UserToStudentSerializer.validate_user_id,
          hu, h]

/-- Witness for C9: user 1 of `convDB` already has a Teacher row and user 9
a Student row; both conversions fail and leave the database unchanged. -/
theorem conversion_rejects_existing_profile_witness :
    convert_user_to_teacher convDB 1 107 "E9" =
      (some "User already has a teacher profile", convDB) ∧
    convert_user_to_student convDB 9 509 "S9" =
      (some "User already has a student profile", convDB) := by
  constructor
  · exact (conversion_rejects_existing_profile convDB 1 107 509 "E9" "S9" (by decide)).1 rfl
  · exact (conversion_rejects_existing_profile convDB 9 107 509 "E9" "S9" (by decide)).2 rfl
